import Mathlib

/-!
Verification development for the VAD-Sensor-Bridge repository
(`rust-udp-mqtt`).  The Rust modules are shallowly embedded as Lean
definitions: bytes are `Nat` values below 256, machine integers are `Nat`
with explicit `% 2^w` where wrap-around matters, and the `f32` arithmetic
of the affective engine is modelled over `ℚ` (the constants involved are
exact decimal fractions).
-/

namespace VadBridge

/-! ## Wire codec (src/esp_audio_protocol.rs) -/

/-- `ESP_HEADER_SIZE` from esp_audio_protocol.rs. -/
def ESP_HEADER_SIZE : Nat := 4

/-- `ESP_MAX_PAYLOAD` from esp_audio_protocol.rs. -/
def ESP_MAX_PAYLOAD : Nat := 1400

def PKT_AUDIO_UP : Nat := 0x01
def PKT_AUDIO_DOWN : Nat := 0x02
def PKT_CONTROL : Nat := 0x03
def PKT_HEARTBEAT : Nat := 0x04

def FLAG_START : Nat := 0x01
def FLAG_END : Nat := 0x02
def FLAG_URGENT : Nat := 0x04

def CTRL_SESSION_START : Nat := 0x01
def CTRL_SESSION_END : Nat := 0x02
def CTRL_STREAM_START : Nat := 0x03
def CTRL_STREAM_END : Nat := 0x04
def CTRL_ACK : Nat := 0x05
def CTRL_CANCEL : Nat := 0x06
def CTRL_SERVER_READY : Nat := 0x07

/-- Embedding of `EspPacket` (esp_audio_protocol.rs).  `seq_num` is the
u16 value, `payload` the raw payload bytes. -/
structure EspPacket where
  seq_num : Nat
  pkt_type : Nat
  flags : Nat
  payload : List Nat
deriving DecidableEq

/-- Embedding of `EspPacket::parse`: header length check, little-endian
u16 sequence, known-type check, payload size guard. -/
def EspPacket.parse (buf : List Nat) : Option EspPacket :=
  if buf.length < ESP_HEADER_SIZE then none
  else
    let seq_num := buf.getD 0 0 + 256 * buf.getD 1 0
    let pkt_type := buf.getD 2 0
    let flags := buf.getD 3 0
    let payload := buf.drop ESP_HEADER_SIZE
    if ¬(pkt_type = PKT_AUDIO_UP ∨ pkt_type = PKT_AUDIO_DOWN ∨
          pkt_type = PKT_CONTROL ∨ pkt_type = PKT_HEARTBEAT) then none
    else if payload.length > ESP_MAX_PAYLOAD then none
    else some ⟨seq_num, pkt_type, flags, payload⟩

/-- Embedding of `build_packet`: little-endian u16 sequence, type byte,
flag byte, then the payload. -/
def build_packet (seq_num pkt_type flags : Nat) (payload : List Nat) : List Nat :=
  [seq_num % 256, seq_num / 256 % 256, pkt_type, flags] ++ payload

/-- Embedding of `build_control` (payload is the single command byte). -/
def build_control (seq_num cmd flags : Nat) : List Nat :=
  build_packet seq_num PKT_CONTROL flags [cmd]

/-- Embedding of `build_heartbeat` (empty payload, zero flags). -/
def build_heartbeat (seq_num : Nat) : List Nat :=
  build_packet seq_num PKT_HEARTBEAT 0 []

/-- Embedding of `EspPacket::control_cmd`: the first payload byte of a
control packet; `none` for non-control packets or an empty payload. -/
def EspPacket.control_cmd (p : EspPacket) : Option Nat :=
  if p.pkt_type = PKT_CONTROL then p.payload.head? else none

/-- Embedding of `EspPacket::is_end` (`flags & FLAG_END != 0`). -/
def EspPacket.is_end (p : EspPacket) : Bool :=
  p.flags.land FLAG_END != 0

/-! ## Session record (src/esp_audio_protocol.rs, `EspSession`) -/

/-- Embedding of `SessionState`. -/
inductive SessionState where
  | idle
  | receiving
  | processing
  | responding
deriving DecidableEq

/-- Embedding of `EspSession`.  `addr` abstracts the socket address as a
`Nat`; the `mac` and timestamp fields are irrelevant to the claims and
elided.  All u16/u32/u64 counters are `Nat` with wrap handled explicitly
where the code wraps. -/
structure EspSession where
  state : SessionState
  addr : Nat
  out_seq : Nat
  last_recv_seq : Nat
  audio_packets : Nat
  audio_bytes : Nat
  audio_buffer : List Nat
  packets_lost : Nat
deriving DecidableEq

/-- Embedding of `EspSession::new`. -/
def EspSession.new (addr : Nat) : EspSession :=
  { state := .idle, addr := addr, out_seq := 0, last_recv_seq := 0,
    audio_packets := 0, audio_bytes := 0, audio_buffer := [], packets_lost := 0 }

/-- Embedding of `EspSession::record_audio`: gap detection with u16
wrapping (`expected = last_recv_seq.wrapping_add(1)`,
`gap = seq.wrapping_sub(expected)`), then append and bump counters. -/
def EspSession.record_audio (s : EspSession) (seq : Nat) (payload : List Nat) : EspSession :=
  let s1 :=
    if s.audio_packets > 0 then
      let expected := (s.last_recv_seq + 1) % 65536
      if seq ≠ expected then
        { s with packets_lost := s.packets_lost + (seq + 65536 - expected) % 65536 }
      else s
    else s
  { s1 with last_recv_seq := seq,
            audio_packets := s1.audio_packets + 1,
            audio_bytes := s1.audio_bytes + payload.length,
            audio_buffer := s1.audio_buffer ++ payload }

/-- Embedding of `EspSession::reset`: back to `Idle`, counters and buffer
zeroed (`out_seq` and `last_recv_seq` are not touched by the source). -/
def EspSession.reset (s : EspSession) : EspSession :=
  { s with state := .idle, audio_packets := 0, audio_bytes := 0,
           audio_buffer := [], packets_lost := 0 }

/-! ## Session orchestrator (src/transport_udp.rs)

The orchestrator state is the address-keyed session map plus the optional
persistent OpenAI bridge.  Socket sends, bridge control events, VAD
forwards and WAV writes are collected as effect lists; the bridge's
active-device cell is part of the state.  Addresses are abstracted as
`Nat`. -/

/-- Embedding of `EspSessionEntry` (transport_udp.rs): session plus the
presence of the cloned bridge audio sender (`openai_tx`). -/
structure EspSessionEntry where
  session : EspSession
  openai_tx : Bool
deriving DecidableEq

/-- The bridge handle state visible to the orchestrator: the
`active_esp` cell written by `OpenAiSession::set_active_esp` /
`clear_active_esp` (transport_openai.rs). -/
structure Bridge where
  active_esp : Option Nat
deriving DecidableEq

/-- Control events issued to the bridge
(`clear_input_buffer` / `commit_input_buffer`). -/
inductive BridgeEvent where
  | clearInput
  | commitInput
deriving DecidableEq

/-- Observable effects of one orchestrator step: UDP datagrams sent,
bridge control events issued, payloads forwarded to the VAD dispatcher,
payloads pushed into the bridge audio queue, WAV buffers written. -/
structure Effects where
  sent : List (Nat × List Nat)
  bridgeEvents : List BridgeEvent
  vadForwards : List (List Nat)
  oaiAudio : List (List Nat)
  wavs : List (List Nat)
deriving DecidableEq

/-- No observable effect. -/
def Effects.empty : Effects := ⟨[], [], [], [], []⟩

/-- Concatenation of effect logs (sequential composition of steps). -/
def Effects.append (a b : Effects) : Effects :=
  ⟨a.sent ++ b.sent, a.bridgeEvents ++ b.bridgeEvents,
   a.vadForwards ++ b.vadForwards, a.oaiAudio ++ b.oaiAudio, a.wavs ++ b.wavs⟩

/-- Orchestrator state: the `SessionMap` and the optional persistent
bridge (`persistent_oai`). -/
structure OrchState where
  sessions : Nat → Option EspSessionEntry
  bridge : Option Bridge

/-- Point update of the session map (`map.entry(src)` insertion). -/
def updateSessions (m : Nat → Option EspSessionEntry) (k : Nat)
    (v : EspSessionEntry) : Nat → Option EspSessionEntry :=
  fun j => if j = k then some v else m j

/-- Embedding of `handle_esp_control` (transport_udp.rs).

* `CTRL_SESSION_START`: if a bridge exists, write its active-device cell
  to `src` and issue `clear_input_buffer`; install the bridge sender in
  the (located-or-created) session entry; reset the session and move it
  to `Receiving`; reply `SERVER_READY` mirroring the inbound sequence.
* `CTRL_SESSION_END`: if the entry is `Receiving`, move it to
  `Processing`, drop its bridge sender and snapshot the audio buffer;
  always issue `commit_input_buffer` when a bridge exists (the
  active-device cell is not written); on a snapshot, write the WAV when
  non-empty, reply `ACK`, and reset the session; otherwise just `ACK`.
* `CTRL_CANCEL`: reset the entry and drop its sender; if a bridge
  exists, clear its active-device cell and issue `clear_input_buffer`;
  reply `ACK`.
* anything else: no effect. -/
def handle_esp_control (cmd : Nat) (pkt : EspPacket) (src : Nat)
    (st : OrchState) : OrchState × Effects :=
  if cmd = CTRL_SESSION_START then
    let bridge' := st.bridge.map fun _ => { active_esp := some src }
    let ev := if st.bridge.isSome then [BridgeEvent.clearInput] else []
    let has_tx := st.bridge.isSome
    let entry := (st.sessions src).getD ⟨EspSession.new src, false⟩
    let entry' : EspSessionEntry :=
      ⟨{ entry.session.reset with state := .receiving }, has_tx⟩
    ({ sessions := updateSessions st.sessions src entry', bridge := bridge' },
     { Effects.empty with
        sent := [(src, build_control pkt.seq_num CTRL_SERVER_READY 0)],
        bridgeEvents := ev })
  else if cmd = CTRL_SESSION_END then
    let step1 : (Nat → Option EspSessionEntry) × Option (List Nat) :=
      match st.sessions src with
      | some e =>
        if e.session.state = .receiving then
          (updateSessions st.sessions src
             ⟨{ e.session with state := .processing }, false⟩,
           some e.session.audio_buffer)
        else (st.sessions, none)
      | none => (st.sessions, none)
    let ev := if st.bridge.isSome then [BridgeEvent.commitInput] else []
    match step1.2 with
    | some buf =>
      let wavs := if buf ≠ [] then [buf] else []
      let sessions2 :=
        match step1.1 src with
        | some e => updateSessions step1.1 src ⟨e.session.reset, false⟩
        | none => step1.1
      ({ sessions := sessions2, bridge := st.bridge },
       { Effects.empty with
          sent := [(src, build_control pkt.seq_num CTRL_ACK 0)],
          bridgeEvents := ev, wavs := wavs })
    | none =>
      ({ sessions := step1.1, bridge := st.bridge },
       { Effects.empty with
          sent := [(src, build_control pkt.seq_num CTRL_ACK 0)],
          bridgeEvents := ev })
  else if cmd = CTRL_CANCEL then
    let sessions1 :=
      match st.sessions src with
      | some e => updateSessions st.sessions src ⟨e.session.reset, false⟩
      | none => st.sessions
    let bridge' := st.bridge.map fun _ => { active_esp := none }
    let ev := if st.bridge.isSome then [BridgeEvent.clearInput] else []
    ({ sessions := sessions1, bridge := bridge' },
     { Effects.empty with
        sent := [(src, build_control pkt.seq_num CTRL_ACK 0)],
        bridgeEvents := ev })
  else (st, Effects.empty)

/-- Embedding of the dispatch of one received, parsed datagram in
`esp_audio_recv_loop` (transport_udp.rs): heartbeats are mirrored;
control packets are routed through `handle_esp_control` only when
`control_cmd` yields a command; `AUDIO_UP` records into the session
(auto-creating a `Receiving` entry with no bridge sender), forwards the
payload to the VAD dispatcher and — when a sender is installed — to the
bridge audio queue, and treats the `END` flag as `SESSION_END`.  Queue
capacities are not modelled (`try_send` failures only drop). -/
def espAudioStep (pkt : EspPacket) (src : Nat) (st : OrchState) :
    OrchState × Effects :=
  if pkt.pkt_type = PKT_HEARTBEAT then
    (st, { Effects.empty with sent := [(src, build_heartbeat pkt.seq_num)] })
  else if pkt.pkt_type = PKT_CONTROL then
    match pkt.control_cmd with
    | some cmd => handle_esp_control cmd pkt src st
    | none => (st, Effects.empty)
  else if pkt.pkt_type = PKT_AUDIO_UP then
    let entry := (st.sessions src).getD
      ⟨{ EspSession.new src with state := .receiving }, false⟩
    let rec1 : EspSessionEntry × Bool × Bool :=
      if entry.session.state = .receiving then
        (⟨entry.session.record_audio pkt.seq_num pkt.payload, entry.openai_tx⟩,
         true, entry.openai_tx)
      else (entry, false, false)
    let st1 : OrchState :=
      { st with sessions := updateSessions st.sessions src rec1.1 }
    let fx1 : Effects :=
      if rec1.2.1 ∧ pkt.payload ≠ [] then
        { Effects.empty with
           vadForwards := [pkt.payload],
           oaiAudio := if rec1.2.2 then [pkt.payload] else [] }
      else Effects.empty
    if pkt.is_end then
      let next := handle_esp_control CTRL_SESSION_END pkt src st1
      (next.1, fx1.append next.2)
    else (st1, fx1)
  else (st, Effects.empty)

/-! ## Persona (src/persona.rs)

The `f32` delta tables are exact decimal fractions and are embedded
over `ℚ`. -/

/-- Embedding of `PersonaTrait`. -/
inductive PersonaTrait where
  | obedient
  | mischievous
  | cute
  | stubborn
deriving DecidableEq

/-- Embedding of `PersonaTrait::index`. -/
def PersonaTrait.index : PersonaTrait → Nat
  | .obedient => 0
  | .mischievous => 1
  | .cute => 2
  | .stubborn => 3

/-- Embedding of `PersonaTrait::from_index`. -/
def PersonaTrait.from_index (i : Nat) : Option PersonaTrait :=
  match i with
  | 0 => some .obedient
  | 1 => some .mischievous
  | 2 => some .cute
  | 3 => some .stubborn
  | _ => none

/-- An 11-slot weight vector (10 sensor channels + bias at slot 10),
mirroring the `[f32; 11]` arrays of persona.rs / vad.rs. -/
structure W11 where
  w0 : ℚ
  w1 : ℚ
  w2 : ℚ
  w3 : ℚ
  w4 : ℚ
  w5 : ℚ
  w6 : ℚ
  w7 : ℚ
  w8 : ℚ
  w9 : ℚ
  w10 : ℚ
deriving DecidableEq

/-- Embedding of `PersonaWeightDeltas`. -/
structure PersonaWeightDeltas where
  valence : W11
  arousal : W11
  dominance : W11
deriving DecidableEq

/-- Embedding of `persona_weight_deltas` (persona.rs): the per-trait
additive delta tables, transcribed slot by slot
(bat, ppl, kno, unk, fal, lft, idl, snd, voi, mot, bias). -/
def persona_weight_deltas : PersonaTrait → PersonaWeightDeltas
  | .obedient =>
    { valence := ⟨0, 5/100, 5/100, 0, 0, 0, 0, 0, 0, 0, 0⟩,
      arousal := ⟨0, 0, 0, 0, -5/100, 0, 0, -8/100, 0, -8/100, -5/100⟩,
      dominance := ⟨0, 0, 1/10, 0, 0, 0, 0, 0, 5/100, 0, 1/10⟩ }
  | .mischievous =>
    { valence := ⟨0, 0, 0, 0, 0, 0, -5/100, 1/10, 0, 8/100, 0⟩,
      arousal := ⟨0, 0, 0, 0, 0, 1/10, 0, 1/10, 0, 1/10, 8/100⟩,
      dominance := ⟨0, 0, -8/100, 0, 0, 0, 0, 0, 0, 0, -1/10⟩ }
  | .cute =>
    { valence := ⟨0, 1/10, 15/100, 5/100, 5/100, 0, 0, 0, 1/10, 0, 8/100⟩,
      arousal := ⟨0, 5/100, 0, 0, -5/100, -5/100, 0, 0, 5/100, 0, 0⟩,
      dominance := ⟨0, 5/100, 5/100, 0, 0, 0, 0, 0, 0, 0, 5/100⟩ }
  | .stubborn =>
    { valence := ⟨0, -8/100, -1/10, 8/100, 5/100, 0, 0, 0, 0, 0, 0⟩,
      arousal := ⟨0, 0, 0, 8/100, 1/10, 8/100, 0, 0, 0, 5/100, 0⟩,
      dominance := ⟨0, 0, 1/10, 0, 0, 0, 0, 0, 0, 8/100, 15/100⟩ }

/-- Embedding of `apply_deltas` (persona.rs): slotwise sum. -/
def apply_deltas (base delta : W11) : W11 :=
  ⟨base.w0 + delta.w0, base.w1 + delta.w1, base.w2 + delta.w2,
   base.w3 + delta.w3, base.w4 + delta.w4, base.w5 + delta.w5,
   base.w6 + delta.w6, base.w7 + delta.w7, base.w8 + delta.w8,
   base.w9 + delta.w9, base.w10 + delta.w10⟩

/-! ## Sensor vector and smoother (src/sensor.rs, src/sensor_smoother.rs) -/

/-- Embedding of `SensorVector` (sensor.rs): the ten named channels, as
exact rationals.  The byte-level IEEE-754 decoding of `from_payload` is
abstracted: the payload is modelled as the list of decoded channel
values. -/
structure SensorVector where
  battery_low : ℚ
  people_count : ℚ
  known_face : ℚ
  unknown_face : ℚ
  fall_event : ℚ
  lifted : ℚ
  idle_time : ℚ
  sound_energy : ℚ
  voice_rate : ℚ
  motion_energy : ℚ
deriving DecidableEq

/-- Embedding of `SensorVector::from_payload`: fails when fewer than ten
channel values are present (the source checks `payload.len() < 40`
bytes, i.e. ten 4-byte floats). -/
def SensorVector.from_payload (payload : List ℚ) : Option SensorVector :=
  if payload.length < 10 then none
  else some ⟨payload.getD 0 0, payload.getD 1 0, payload.getD 2 0,
             payload.getD 3 0, payload.getD 4 0, payload.getD 5 0,
             payload.getD 6 0, payload.getD 7 0, payload.getD 8 0,
             payload.getD 9 0⟩

/-- Embedding of `SensorPacket` (sensor.rs), with the payload already
decoded to channel values for the emotional path. -/
structure SensorPacketQ where
  sensor_id : Nat
  timestamp_us : Nat
  data_type : Nat
  seq : Nat
  payload : List ℚ

/-- `DATA_TYPE_AUDIO` from sensor.rs. -/
def DATA_TYPE_AUDIO : Nat := 1

/-- `DATA_TYPE_SENSOR_VECTOR` from sensor.rs. -/
def DATA_TYPE_SENSOR_VECTOR : Nat := 2

/-- Embedding of `idle_alpha` (sensor_smoother.rs). -/
def idle_alpha : PersonaTrait → ℚ
  | .stubborn => 3/100
  | .obedient => 5/100
  | .cute => 8/100
  | .mischievous => 15/100

/-- The smoother state: per-sensor-id EMA of the idle channel.  The
source's `HashMap<u32, SensorEma>` with `or_insert(SensorEma::new())`
(prior 0) is modelled as a total map defaulting to 0. -/
def Smoother : Type := Nat → ℚ

/-- The fresh smoother (`SensorSmoother::new`): every sensor id starts
from prior state 0. -/
def Smoother.fresh : Smoother := fun _ => 0

/-- Embedding of `SensorSmoother::smooth`: EMA update of the idle_time
channel (index 6) only; returns the smoothed vector and the updated
per-sensor state. -/
def smooth (m : Smoother) (sensor_id : Nat) (s : SensorVector)
    (persona : PersonaTrait) : SensorVector × Smoother :=
  let alpha := idle_alpha persona
  let newIdle := alpha * s.idle_time + (1 - alpha) * m sensor_id
  ({ s with idle_time := newIdle },
   fun j => if j = sensor_id then newIdle else m j)

/-! ## Emotional VAD (src/vad.rs) -/

/-- `VALENCE_W` from vad.rs. -/
def VALENCE_W : W11 :=
  ⟨-5/100, 15/100, 3/10, -2/10, -2/10, -15/100, -1/10, 5/100, 15/100, 0, 3/10⟩

/-- `AROUSAL_W` from vad.rs. -/
def AROUSAL_W : W11 :=
  ⟨0, 1/10, 0, 1/10, 2/10, 15/100, -25/100, 25/100, 1/10, 25/100, 1/10⟩

/-- `DOMINANCE_W` from vad.rs. -/
def DOMINANCE_W : W11 :=
  ⟨-15/100, 1/10, 25/100, -2/10, -15/100, -15/100, -5/100, 5/100, 15/100, 5/100, 35/100⟩

/-- `EMOTIONAL_ACTIVE_THRESHOLD` from vad.rs (`0.35`). -/
def EMOTIONAL_ACTIVE_THRESHOLD : ℚ := 35/100

/-- The affine part of `weighted_sum` (vad.rs): bias plus the channel
dot product, before clamping. -/
def weighted_sum_raw (s : SensorVector) (w : W11) : ℚ :=
  w.w10 + s.battery_low * w.w0 + s.people_count * w.w1 + s.known_face * w.w2
    + s.unknown_face * w.w3 + s.fall_event * w.w4 + s.lifted * w.w5
    + s.idle_time * w.w6 + s.sound_energy * w.w7 + s.voice_rate * w.w8
    + s.motion_energy * w.w9

/-- Embedding of `weighted_sum` (vad.rs): the affine map clamped to
`[0, 1]` (`sum.clamp(0.0, 1.0)`). -/
def weighted_sum (s : SensorVector) (w : W11) : ℚ :=
  max 0 (min (weighted_sum_raw s w) 1)

/-- Embedding of `VadKind` (vad.rs). -/
inductive VadKind where
  | audio
  | emotional
deriving DecidableEq

/-- Embedding of `VadResult` (vad.rs) for the emotional pipeline
(`energy`/`threshold` are the zeroes the emotional branch stores). -/
structure VadResult where
  sensor_id : Nat
  seq : Nat
  kind : VadKind
  is_active : Bool
  energy : ℚ
  threshold : ℚ
  valence : ℚ
  arousal : ℚ
  dominance : ℚ
deriving DecidableEq

/-- Embedding of `compute_emotional_vad` (vad.rs): apply the persona
deltas to the base weight vectors, parse the payload, smooth the idle
channel, take the three clamped weighted sums (zeros on a short
payload), and set the activity flag from the arousal threshold. -/
def compute_emotional_vad (packet : SensorPacketQ) (persona : PersonaTrait)
    (m : Smoother) : VadResult × Smoother :=
  let deltas := persona_weight_deltas persona
  let val_w := apply_deltas VALENCE_W deltas.valence
  let aro_w := apply_deltas AROUSAL_W deltas.arousal
  let dom_w := apply_deltas DOMINANCE_W deltas.dominance
  let step : ℚ × ℚ × ℚ × Smoother :=
    match SensorVector.from_payload packet.payload with
    | some v =>
      let sm := smooth m packet.sensor_id v persona
      (weighted_sum sm.1 val_w, weighted_sum sm.1 aro_w,
       weighted_sum sm.1 dom_w, sm.2)
    | none => (0, 0, 0, m)
  ({ sensor_id := packet.sensor_id, seq := packet.seq, kind := .emotional,
     is_active := decide (step.2.1 > EMOTIONAL_ACTIVE_THRESHOLD),
     energy := 0, threshold := 0,
     valence := step.1, arousal := step.2.1, dominance := step.2.2.1 },
   step.2.2.2)

/-- The routing guard of `process_packet` (vad.rs): data type 2 selects
the emotional pipeline.  The audio branch (`compute_audio_vad`, an RMS
square root) is outside the claims and not modelled. -/
def process_packet_emotional (packet : SensorPacketQ)
    (persona : PersonaTrait) (m : Smoother) : Option (VadResult × Smoother) :=
  if packet.data_type = DATA_TYPE_SENSOR_VECTOR then
    some (compute_emotional_vad packet persona m)
  else none

/-- Iterated smoothing of one sensor id: the smoother state after `k`
consecutive packets carrying the constant vector `v`, starting from the
fresh smoother. -/
def smoothIter (persona : PersonaTrait) (sensor_id : Nat) (v : SensorVector) :
    Nat → Smoother
  | 0 => Smoother.fresh
  | k + 1 => (smooth (smoothIter persona sensor_id v k) sensor_id v persona).2

/-- The claim's delta-sum formula (stated from the spec, for comparison
with the code's outputs): `Σᵢ (Δp1,i − Δp2,i) · (vᵢ ‖ 1)`. -/
def deltaSum (s : SensorVector) (d1 d2 : W11) : ℚ :=
  (d1.w0 - d2.w0) * s.battery_low + (d1.w1 - d2.w1) * s.people_count
    + (d1.w2 - d2.w2) * s.known_face + (d1.w3 - d2.w3) * s.unknown_face
    + (d1.w4 - d2.w4) * s.fall_event + (d1.w5 - d2.w5) * s.lifted
    + (d1.w6 - d2.w6) * s.idle_time + (d1.w7 - d2.w7) * s.sound_energy
    + (d1.w8 - d2.w8) * s.voice_rate + (d1.w9 - d2.w9) * s.motion_energy
    + (d1.w10 - d2.w10) * 1

/-! ## Resampler (src/transport_openai.rs) -/

/-- Rust's `f64::round`: round half away from zero. -/
def roundHalfAway (q : ℚ) : ℤ :=
  if 0 ≤ q then ⌊q + 1/2⌋ else ⌈q - 1/2⌉

/-- Embedding of `resample` (transport_openai.rs), at the level of i16
samples (`ℤ`): the byte-pair decoding/encoding on either side is
elided, `n_in = pcm.len() / 2` becomes the sample count.  The position
arithmetic the source performs in `f64` is modelled exactly over `ℚ`;
`pos as usize` truncates, which equals the floor for the nonnegative
positions that occur.  The interpolated value is a convex combination
of two in-range samples, so the `as i16` conversion never saturates and
is not modelled. -/
def resample (src : List ℤ) (from_rate to_rate : Nat) : List ℤ :=
  let n_in := src.length
  if n_in = 0 then []
  else
    let n_out := n_in * to_rate / from_rate
    if n_out ≤ 1 then [src.getD 0 0]
    else
      (List.range n_out).map fun j =>
        let pos : ℚ := ((j * (n_in - 1) : Nat) : ℚ) / ((n_out - 1 : Nat) : ℚ)
        let idx := (⌊pos⌋).toNat
        let frac : ℚ := pos - (idx : ℚ)
        if idx + 1 < n_in then
          roundHalfAway ((src.getD idx 0 : ℚ) * (1 - frac)
            + (src.getD (idx + 1) 0 : ℚ) * frac)
        else src.getD (n_in - 1) 0

/-! ## Affective reply frame (src/vad_response.rs)

The `f32` fields carry IEEE-754 bit patterns: `f32::to_le_bytes` writes
the four bytes of the bit pattern, so each field is modelled as its
32-bit pattern (a `Nat` below `2^32`).  Recovering the pattern exactly
recovers the float value exactly — in particular within 1 ULP. -/

/-- `n`-byte little-endian encoding of a machine integer
(`to_le_bytes`). -/
def leBytes : Nat → Nat → List Nat
  | 0, _ => []
  | n + 1, v => v % 256 :: leBytes n (v / 256)

/-- Little-endian decoding (`from_le_bytes`). -/
def fromLe (bs : List Nat) : Nat :=
  bs.foldr (fun b acc => b + 256 * acc) 0

/-- Embedding of `VadResponsePacket` (vad_response.rs).  `sensor_id` is
the u32, `seq` the u64, `is_active` and `kind` the u8 fields; the five
f32 fields are their 32-bit patterns. -/
structure VadResponsePacket where
  sensor_id : Nat
  seq : Nat
  is_active : Nat
  kind : Nat
  energy : Nat
  threshold : Nat
  valence : Nat
  arousal : Nat
  dominance : Nat
deriving DecidableEq

/-- Embedding of `VadResponsePacket::to_bytes`: the fixed little-endian
layout, in field order. -/
def VadResponsePacket.to_bytes (p : VadResponsePacket) : List Nat :=
  leBytes 4 p.sensor_id ++ leBytes 8 p.seq ++ [p.is_active] ++ [p.kind]
    ++ leBytes 4 p.energy ++ leBytes 4 p.threshold ++ leBytes 4 p.valence
    ++ leBytes 4 p.arousal ++ leBytes 4 p.dominance

/-- The `kind` byte written by `VadResponsePacket::from_vad_result`
(`Audio → 1`, `Emotional → 2`). -/
def kindByte : VadKind → Nat
  | .audio => 1
  | .emotional => 2

/-- The `is_active` byte written by
`VadResponsePacket::from_vad_result` (`true → 1`, `false → 0`). -/
def activeByte (b : Bool) : Nat := if b then 1 else 0

/-! ## REST control surface (src/api.rs) -/

/-- Outcome of the `PUT /persona` handler: either the JSON
`PersonaResponse` (persona and its index) or an HTTP status with a JSON
error message. -/
inductive SetPersonaOutcome where
  | ok (persona : PersonaTrait) (index : Nat)
  | badRequest (status : Nat) (error : String)
deriving DecidableEq

/-- Embedding of `set_persona` (api.rs): the request body carries an
optional persona name and an optional index; a present (deserialized,
hence valid) name wins, otherwise the index is resolved through
`PersonaTrait::from_index`; error paths return 400 before the shared
state is written.  Returns the persona state after the handler together
with the response. -/
def set_persona (cur : PersonaTrait) (persona? : Option PersonaTrait)
    (index? : Option Nat) : PersonaTrait × SetPersonaOutcome :=
  match persona?, index? with
  | some p, _ => (p, .ok p p.index)
  | none, some i =>
    match PersonaTrait.from_index i with
    | some p => (p, .ok p p.index)
    | none =>
      (cur, .badRequest 400 ("invalid persona index: " ++ toString i ++ " (valid: 0-3)"))
  | none, none =>
    (cur, .badRequest 400 "provide either persona (string) or index (0-3)")

/-! ## Concrete fixtures used by witnesses -/

/-- A session entry in `Receiving` state with an installed bridge
sender, for witness instantiation. -/
def fixtureEntryC3 : EspSessionEntry :=
  ⟨{ EspSession.new 5 with state := .receiving }, true⟩

/-- An orchestrator state with one `Receiving` session at address 5 and
a bridge whose active device is address 9. -/
def fixtureStateC3 : OrchState :=
  ⟨fun j => if j = 5 then some fixtureEntryC3 else none, some ⟨some 9⟩⟩

/-- A control packet carrying the `SESSION_END` command byte. -/
def fixturePktC3 : EspPacket := ⟨0, PKT_CONTROL, 0, [CTRL_SESSION_END]⟩

/-- An orchestrator state with no sessions and no bridge. -/
def fixtureStateC10 : OrchState := ⟨fun _ => none, none⟩

/-- A data-type-2 sensor packet carrying the spec's "happy scenario"
channel vector. -/
def fixturePacketC6 : SensorPacketQ :=
  ⟨42, 0, DATA_TYPE_SENSOR_VECTOR, 1,
   [1/10, 85/100, 95/100, 5/100, 0, 0, 15/100, 45/100, 75/100, 35/100]⟩

/-! ## Theorems -/

/-- **C1**: for every device audio frame with a known type and a payload
of at most 1400 bytes, parsing the bytes produced by `build_packet`
succeeds and returns exactly the same `seq`, `type`, `flags` and
`payload`; conversely `EspPacket::parse` returns `None` exactly when
the buffer is shorter than 4 bytes, the type byte is outside
`{0x01, 0x02, 0x03, 0x04}`, or the payload exceeds 1400 bytes. -/
theorem c1_build_parse_roundtrip (seq pt flags : Nat) (payload buf : List Nat)
    (hseq : seq < 65536)
    (hpt : pt = PKT_AUDIO_UP ∨ pt = PKT_AUDIO_DOWN ∨ pt = PKT_CONTROL
      ∨ pt = PKT_HEARTBEAT)
    (hlen : payload.length ≤ 1400) :
    EspPacket.parse (build_packet seq pt flags payload)
      = some ⟨seq, pt, flags, payload⟩
    ∧ (EspPacket.parse buf = none ↔
        buf.length < 4
        ∨ ¬(buf.getD 2 0 = PKT_AUDIO_UP ∨ buf.getD 2 0 = PKT_AUDIO_DOWN
            ∨ buf.getD 2 0 = PKT_CONTROL ∨ buf.getD 2 0 = PKT_HEARTBEAT)
        ∨ buf.length - 4 > 1400) := by
  constructor
  · unfold EspPacket.parse build_packet ESP_HEADER_SIZE ESP_MAX_PAYLOAD
    have h1 : ¬([seq % 256, seq / 256 % 256, pt, flags] ++ payload).length < 4 := by
      simp [List.length_append]
    rw [if_neg h1]
    have hget0 : ([seq % 256, seq / 256 % 256, pt, flags] ++ payload).getD 0 0
        = seq % 256 := rfl
    have hget1 : ([seq % 256, seq / 256 % 256, pt, flags] ++ payload).getD 1 0
        = seq / 256 % 256 := rfl
    have hget2 : ([seq % 256, seq / 256 % 256, pt, flags] ++ payload).getD 2 0
        = pt := rfl
    have hget3 : ([seq % 256, seq / 256 % 256, pt, flags] ++ payload).getD 3 0
        = flags := rfl
    have hdrop : ([seq % 256, seq / 256 % 256, pt, flags] ++ payload).drop 4
        = payload := rfl
    rw [hget0, hget1, hget2, hget3, hdrop]
    rw [if_neg (not_not.mpr hpt), if_neg (by omega)]
    have hseq' : seq % 256 + 256 * (seq / 256 % 256) = seq := by omega
    rw [hseq']
  · unfold EspPacket.parse
    have hdroplen : (buf.drop ESP_HEADER_SIZE).length = buf.length - 4 := by
      simp [ESP_HEADER_SIZE]
    dsimp only
    split_ifs with h1 h2 h3
    · simp only [ESP_HEADER_SIZE] at h1
      simp [h1]
    · rw [hdroplen] at h3
      simp only [ESP_MAX_PAYLOAD] at h3
      simp only [eq_self_iff_true, true_iff]
      exact Or.inr (Or.inr h3)
    · simp only [ESP_HEADER_SIZE] at h1
      rw [hdroplen] at h3
      simp only [ESP_MAX_PAYLOAD] at h3
      simp only [reduceCtorEq, false_iff]
      push_neg
      exact ⟨by omega, h2, by omega⟩
    · simp only [eq_self_iff_true, true_iff]
      exact Or.inr (Or.inl h2)

/-- Witness for C1 at a concrete control frame and the empty buffer. -/
theorem c1_witness :
    EspPacket.parse (build_packet 258 PKT_CONTROL 2 [9, 9])
      = some ⟨258, PKT_CONTROL, 2, [9, 9]⟩
    ∧ (EspPacket.parse [] = none ↔
        List.length ([] : List Nat) < 4
        ∨ ¬(([] : List Nat).getD 2 0 = PKT_AUDIO_UP
            ∨ ([] : List Nat).getD 2 0 = PKT_AUDIO_DOWN
            ∨ ([] : List Nat).getD 2 0 = PKT_CONTROL
            ∨ ([] : List Nat).getD 2 0 = PKT_HEARTBEAT)
        ∨ List.length ([] : List Nat) - 4 > 1400) :=
  c1_build_parse_roundtrip 258 PKT_CONTROL 2 [9, 9] []
    (by decide) (by decide) (by decide)

/-- **C2**: `record_audio(seq, payload)` appends the payload exactly
once; when at least one packet was recorded before, the loss counter
increases by exactly the unsigned 16-bit wrapping distance
`seq − (last_recv_seq + 1)` (zero when the packet is in order); on the
first recorded packet the loss counter is unchanged. -/
theorem c2_record_audio (s : EspSession) (seq : Nat) (payload : List Nat)
    (hseq : seq < 65536) :
    (s.record_audio seq payload).audio_buffer = s.audio_buffer ++ payload
    ∧ (0 < s.audio_packets →
        (s.record_audio seq payload).packets_lost
          = s.packets_lost
            + (seq + 65536 - (s.last_recv_seq + 1) % 65536) % 65536)
    ∧ (seq = (s.last_recv_seq + 1) % 65536 →
        (s.record_audio seq payload).packets_lost = s.packets_lost)
    ∧ (s.audio_packets = 0 →
        (s.record_audio seq payload).packets_lost = s.packets_lost) := by
  unfold EspSession.record_audio
  dsimp only
  split_ifs with h1 h2
  · refine ⟨rfl, fun _ => rfl, fun hord => absurd hord h2, fun h0 => by omega⟩
  · refine ⟨rfl, fun _ => ?_, fun _ => rfl, fun _ => rfl⟩
    have : seq = (s.last_recv_seq + 1) % 65536 := not_not.mp h2
    have hlt : (s.last_recv_seq + 1) % 65536 < 65536 := Nat.mod_lt _ (by omega)
    omega
  · exact ⟨rfl, fun hpos => by omega, fun _ => rfl, fun _ => rfl⟩

/-- Lookup of a freshly updated key in the session map. -/
theorem updateSessions_same (m : Nat → Option EspSessionEntry) (k : Nat)
    (v : EspSessionEntry) : updateSessions m k v k = some v := by
  simp [updateSessions]

/-- **C3**: the bridge's active-device cell is set to the source address
on every `SessionStart` and cleared on every `Cancel`; `SessionEnd`
handling issues `commit_input_buffer`, detaches the session's bridge
sender, and never writes the active-device cell. -/
theorem c3_active_device_cell (st : OrchState) (pkt : EspPacket) (src : Nat) :
    (∀ b, st.bridge = some b →
        (handle_esp_control CTRL_SESSION_START pkt src st).1.bridge
          = some ⟨some src⟩)
    ∧ (∀ b, st.bridge = some b →
        (handle_esp_control CTRL_CANCEL pkt src st).1.bridge = some ⟨none⟩)
    ∧ (handle_esp_control CTRL_SESSION_END pkt src st).1.bridge = st.bridge
    ∧ (st.bridge.isSome = true →
        BridgeEvent.commitInput
          ∈ (handle_esp_control CTRL_SESSION_END pkt src st).2.bridgeEvents)
    ∧ (∀ e, st.sessions src = some e → e.session.state = .receiving →
        ∃ e', (handle_esp_control CTRL_SESSION_END pkt src st).1.sessions src
            = some e' ∧ e'.openai_tx = false) := by
  refine ⟨?_, ?_, ?_, ?_, ?_⟩
  · intro b hb
    unfold handle_esp_control
    rw [if_pos rfl]
    simp [hb]
  · intro b hb
    unfold handle_esp_control
    rw [if_neg (by decide), if_neg (by decide), if_pos rfl]
    cases hs : st.sessions src <;> simp [hb, hs]
  · unfold handle_esp_control
    rw [if_neg (by decide), if_pos rfl]
    dsimp only
    cases hs : st.sessions src with
    | none => simp [hs]
    | some e =>
      by_cases hrecv : e.session.state = .receiving
      · simp [hs, hrecv]
      · simp [hs, hrecv]
  · intro hb
    unfold handle_esp_control
    rw [if_neg (by decide), if_pos rfl]
    dsimp only
    cases hs : st.sessions src with
    | none => simp [hs, hb]
    | some e =>
      by_cases hrecv : e.session.state = .receiving
      · simp [hs, hrecv, hb]
      · simp [hs, hrecv, hb]
  · intro e hs hrecv
    unfold handle_esp_control
    rw [if_neg (by decide), if_pos rfl]
    dsimp only
    simp [hs, hrecv, updateSessions_same]

/-- Witness for C3 at a concrete state with a bridge and a `Receiving`
session. -/
theorem c3_witness :
    (handle_esp_control CTRL_SESSION_START fixturePktC3 5 fixtureStateC3).1.bridge
      = some ⟨some 5⟩
    ∧ (handle_esp_control CTRL_CANCEL fixturePktC3 5 fixtureStateC3).1.bridge
      = some ⟨none⟩
    ∧ (handle_esp_control CTRL_SESSION_END fixturePktC3 5 fixtureStateC3).1.bridge
      = fixtureStateC3.bridge
    ∧ BridgeEvent.commitInput
      ∈ (handle_esp_control CTRL_SESSION_END fixturePktC3 5 fixtureStateC3).2.bridgeEvents
    ∧ ∃ e', (handle_esp_control CTRL_SESSION_END fixturePktC3 5 fixtureStateC3).1.sessions 5
        = some e' ∧ e'.openai_tx = false := by
  have h := c3_active_device_cell fixtureStateC3 fixturePktC3 5
  exact ⟨h.1 ⟨some 9⟩ rfl, h.2.1 ⟨some 9⟩ rfl, h.2.2.1, h.2.2.2.1 rfl,
    h.2.2.2.2 fixtureEntryC3 rfl rfl⟩

/-- **C10**: a Control packet (type 0x03) with an empty payload yields
no command from `control_cmd`, and the receive-loop dispatch performs no
action at all: the state is unchanged and no datagram, bridge event,
VAD forward or WAV write is produced. -/
theorem c10_empty_control_ignored (st : OrchState) (pkt : EspPacket) (src : Nat)
    (htype : pkt.pkt_type = PKT_CONTROL) (hpay : pkt.payload = []) :
    pkt.control_cmd = none
    ∧ espAudioStep pkt src st = (st, Effects.empty) := by
  have hc : pkt.control_cmd = none := by
    simp [EspPacket.control_cmd, htype, hpay]
  refine ⟨hc, ?_⟩
  unfold espAudioStep
  rw [if_neg (by rw [htype]; decide), if_pos htype]
  simp [hc]

/-- Witness for C10 at a concrete empty-payload control packet. -/
theorem c10_witness :
    EspPacket.control_cmd ⟨0, PKT_CONTROL, 0, []⟩ = none
    ∧ espAudioStep ⟨0, PKT_CONTROL, 0, []⟩ 5 fixtureStateC10
      = (fixtureStateC10, Effects.empty) :=
  c10_empty_control_ignored fixtureStateC10 ⟨0, PKT_CONTROL, 0, []⟩ 5 rfl rfl

/-- Counterexample to **C4** as stated: with the input vector
`(0,0,0,1,1,1,0,0,0,0)` (idle channel 0, so smoothing is persona
independent) and personas Obedient and Stubborn, both valence outputs
clamp to 0, so their difference is 0, while the claim's delta sum is
`−13/100`. -/
theorem c4_counterexample :
    ¬ ((compute_emotional_vad ⟨42, 0, 2, 1, [0, 0, 0, 1, 1, 1, 0, 0, 0, 0]⟩
          .obedient Smoother.fresh).1.valence
        - (compute_emotional_vad ⟨42, 0, 2, 1, [0, 0, 0, 1, 1, 1, 0, 0, 0, 0]⟩
          .stubborn Smoother.fresh).1.valence
      = deltaSum ⟨0, 0, 0, 1, 1, 1, 0, 0, 0, 0⟩
          (persona_weight_deltas .obedient).valence
          (persona_weight_deltas .stubborn).valence) := by
  norm_num [compute_emotional_vad, Smoother.fresh, smooth, idle_alpha,
    SensorVector.from_payload, persona_weight_deltas, apply_deltas,
    weighted_sum, weighted_sum_raw, VALENCE_W, deltaSum, min_def, max_def]

/-- **C4** (amended): the additive-delta identity holds for the affine
sums before clamping, on a common (post-smoothing) input vector: for
every vector `v` and personas `p1, p2`, the unclamped valence, arousal
and dominance sums differ by exactly `Σᵢ (Δp1,i − Δp2,i) · (vᵢ ‖ 1)`.
After clamping to `[0, 1]` the identity can fail
(see the counterexample), and the persona-dependent idle smoothing can
additionally make the effective vectors differ. -/
theorem c4_persona_deltas_additive_preclamp (s : SensorVector)
    (p1 p2 : PersonaTrait) :
    weighted_sum_raw s (apply_deltas VALENCE_W (persona_weight_deltas p1).valence)
      - weighted_sum_raw s (apply_deltas VALENCE_W (persona_weight_deltas p2).valence)
      = deltaSum s (persona_weight_deltas p1).valence
          (persona_weight_deltas p2).valence
    ∧ weighted_sum_raw s (apply_deltas AROUSAL_W (persona_weight_deltas p1).arousal)
      - weighted_sum_raw s (apply_deltas AROUSAL_W (persona_weight_deltas p2).arousal)
      = deltaSum s (persona_weight_deltas p1).arousal
          (persona_weight_deltas p2).arousal
    ∧ weighted_sum_raw s (apply_deltas DOMINANCE_W (persona_weight_deltas p1).dominance)
      - weighted_sum_raw s (apply_deltas DOMINANCE_W (persona_weight_deltas p2).dominance)
      = deltaSum s (persona_weight_deltas p1).dominance
          (persona_weight_deltas p2).dominance := by
  refine ⟨?_, ?_, ?_⟩ <;>
    (unfold weighted_sum_raw apply_deltas deltaSum; ring)

/-- Exact closed form of the per-sensor EMA under constant input. -/
theorem smoothIter_closed_form (p : PersonaTrait) (sensor_id : Nat)
    (v : SensorVector) :
    ∀ k, smoothIter p sensor_id v k sensor_id
      = (1 - (1 - idle_alpha p) ^ k) * v.idle_time := by
  intro k
  induction k with
  | zero => simp [smoothIter, Smoother.fresh]
  | succ n ih =>
    unfold smoothIter smooth
    dsimp only
    rw [if_pos rfl, ih]
    ring

/-- **C5**: starting from a fresh smoother, feeding the constant idle
value `v.idle_time` on one sensor id for `k` packets leaves the
smoothed idle state at `(1 − (1−α)^k) · v.idle_time` (exactly, hence
within `1e-6`); the persona alphas are Stubborn 0.03, Obedient 0.05,
Cute 0.08, Mischievous 0.15; and smoothing never modifies a channel
other than index 6 (idle_time). -/
theorem c5_ema_invariant (p : PersonaTrait) (sensor_id : Nat)
    (v : SensorVector) (k : Nat) (m : Smoother) :
    |smoothIter p sensor_id v k sensor_id
        - (1 - (1 - idle_alpha p) ^ k) * v.idle_time| ≤ 1/1000000
    ∧ (idle_alpha .stubborn = 3/100 ∧ idle_alpha .obedient = 5/100
        ∧ idle_alpha .cute = 8/100 ∧ idle_alpha .mischievous = 15/100)
    ∧ ((smooth m sensor_id v p).1.battery_low = v.battery_low
        ∧ (smooth m sensor_id v p).1.people_count = v.people_count
        ∧ (smooth m sensor_id v p).1.known_face = v.known_face
        ∧ (smooth m sensor_id v p).1.unknown_face = v.unknown_face
        ∧ (smooth m sensor_id v p).1.fall_event = v.fall_event
        ∧ (smooth m sensor_id v p).1.lifted = v.lifted
        ∧ (smooth m sensor_id v p).1.sound_energy = v.sound_energy
        ∧ (smooth m sensor_id v p).1.voice_rate = v.voice_rate
        ∧ (smooth m sensor_id v p).1.motion_energy = v.motion_energy) := by
  refine ⟨?_, ⟨rfl, rfl, rfl, rfl⟩,
    ⟨rfl, rfl, rfl, rfl, rfl, rfl, rfl, rfl, rfl⟩⟩
  rw [smoothIter_closed_form, sub_self, abs_zero]
  norm_num

/-- Bounds of the clamped weighted sum. -/
theorem weighted_sum_bounds (s : SensorVector) (w : W11) :
    0 ≤ weighted_sum s w ∧ weighted_sum s w ≤ 1 := by
  unfold weighted_sum
  exact ⟨le_max_left 0 _, max_le (by norm_num) (min_le_right _ _)⟩

/-- **C6**: for every data-type-2 sensor packet, persona and smoother
state, the emotional VAD valence, arousal and dominance all lie in
`[0, 1]`, and the activity flag is true exactly when arousal exceeds
0.35. -/
theorem c6_emotional_bounds (packet : SensorPacketQ) (persona : PersonaTrait)
    (m : Smoother) (r : VadResult) (m' : Smoother)
    (h : process_packet_emotional packet persona m = some (r, m')) :
    0 ≤ r.valence ∧ r.valence ≤ 1 ∧ 0 ≤ r.arousal ∧ r.arousal ≤ 1
    ∧ 0 ≤ r.dominance ∧ r.dominance ≤ 1
    ∧ (r.is_active = true ↔ r.arousal > 35/100) := by
  by_cases hd : packet.data_type = DATA_TYPE_SENSOR_VECTOR
  · rw [process_packet_emotional, if_pos hd, Option.some.injEq] at h
    have hr : r = (compute_emotional_vad packet persona m).1 := by
      rw [h]
    subst hr
    unfold compute_emotional_vad
    dsimp only
    cases hsv : SensorVector.from_payload packet.payload with
    | none =>
      simp only [hsv]
      refine ⟨by norm_num, by norm_num, by norm_num, by norm_num,
        by norm_num, by norm_num, ?_⟩
      simp [EMOTIONAL_ACTIVE_THRESHOLD]
    | some v =>
      simp only [hsv]
      refine ⟨(weighted_sum_bounds _ _).1, (weighted_sum_bounds _ _).2,
        (weighted_sum_bounds _ _).1, (weighted_sum_bounds _ _).2,
        (weighted_sum_bounds _ _).1, (weighted_sum_bounds _ _).2, ?_⟩
      rw [decide_eq_true_iff]
      unfold EMOTIONAL_ACTIVE_THRESHOLD
      exact Iff.rfl
  · rw [process_packet_emotional, if_neg hd] at h
    exact absurd h (by simp)

/-- Witness for C6 at the spec's "happy scenario" packet. -/
theorem c6_witness :
    0 ≤ (compute_emotional_vad fixturePacketC6 .obedient Smoother.fresh).1.valence
    ∧ (compute_emotional_vad fixturePacketC6 .obedient Smoother.fresh).1.valence ≤ 1
    ∧ 0 ≤ (compute_emotional_vad fixturePacketC6 .obedient Smoother.fresh).1.arousal
    ∧ (compute_emotional_vad fixturePacketC6 .obedient Smoother.fresh).1.arousal ≤ 1
    ∧ 0 ≤ (compute_emotional_vad fixturePacketC6 .obedient Smoother.fresh).1.dominance
    ∧ (compute_emotional_vad fixturePacketC6 .obedient Smoother.fresh).1.dominance ≤ 1
    ∧ ((compute_emotional_vad fixturePacketC6 .obedient Smoother.fresh).1.is_active = true
        ↔ (compute_emotional_vad fixturePacketC6 .obedient Smoother.fresh).1.arousal > 35/100) :=
  c6_emotional_bounds fixturePacketC6 .obedient Smoother.fresh
    (compute_emotional_vad fixturePacketC6 .obedient Smoother.fresh).1
    (compute_emotional_vad fixturePacketC6 .obedient Smoother.fresh).2 rfl

/-- Element access of a mapped range. -/
theorem getD_map_range (f : Nat → ℤ) (n j : Nat) (hj : j < n) :
    ((List.range n).map f).getD j 0 = f j := by
  rw [List.getD_eq_getElem?_getD, List.getElem?_map, List.getElem?_range hj]
  rfl

/-- Rounding an integer value is the identity. -/
theorem roundHalfAway_intCast (z : ℤ) : roundHalfAway (z : ℚ) = z := by
  unfold roundHalfAway
  split_ifs with h
  · rw [add_comm, Int.floor_add_int]
    norm_num
  · rw [sub_eq_add_neg, add_comm, Int.ceil_add_int]
    norm_num

/-- The map form of `resample` away from its guard branches. -/
theorem resample_eq_map (src : List ℤ) (from_rate to_rate : Nat)
    (hne : src.length ≠ 0)
    (hout : 1 < src.length * to_rate / from_rate) :
    resample src from_rate to_rate
      = (List.range (src.length * to_rate / from_rate)).map (fun j =>
          let pos : ℚ := ((j * (src.length - 1) : Nat) : ℚ)
              / ((src.length * to_rate / from_rate - 1 : Nat) : ℚ)
          let idx := (⌊pos⌋).toNat
          let frac : ℚ := pos - (idx : ℚ)
          if idx + 1 < src.length then
            roundHalfAway ((src.getD idx 0 : ℚ) * (1 - frac)
              + (src.getD (idx + 1) 0 : ℚ) * frac)
          else src.getD (src.length - 1) 0) := by
  unfold resample
  dsimp only
  rw [if_neg hne, if_neg (by omega)]

/-- Counterexample to **C7** as stated: downsampling two samples from
24 kHz to 16 kHz takes the `n_out ≤ 1` branch, so the single output
sample is `src[0]`, not `src[N_in−1]`. -/
theorem c7_counterexample :
    1 < ([10, 20] : List ℤ).length
    ∧ resample [10, 20] 24000 16000 = [10]
    ∧ (resample [10, 20] 24000 16000).getLast? ≠ some (20 : ℤ) := by
  have h : resample [10, 20] 24000 16000 = [10] := by rfl
  refine ⟨by decide, h, ?_⟩
  rw [h]
  decide

/-- **C7** (amended): for every input with `N_in > 1` samples *and*
target length `N_out = ⌊N_in · R_out / R_in⌋ > 1`, the resampler's
first output sample equals `src[0]` and its last equals
`src[N_in − 1]`; empty input yields empty output.  (When `N_out ≤ 1`
the source emits the single sample `src[0]`, so the last-sample
property needs `N_out > 1`.) -/
theorem c7_resample_endpoints (src : List ℤ) (from_rate to_rate : Nat)
    (hin : 1 < src.length)
    (hout : 1 < src.length * to_rate / from_rate) :
    resample [] from_rate to_rate = []
    ∧ (resample src from_rate to_rate).length
        = src.length * to_rate / from_rate
    ∧ (resample src from_rate to_rate).getD 0 0 = src.getD 0 0
    ∧ (resample src from_rate to_rate).getD
        (src.length * to_rate / from_rate - 1) 0
        = src.getD (src.length - 1) 0 := by
  have hne : src.length ≠ 0 := by omega
  have hres := resample_eq_map src from_rate to_rate hne hout
  refine ⟨rfl, ?_, ?_, ?_⟩
  · rw [hres]
    simp
  · rw [hres, getD_map_range _ _ 0 (by omega)]
    dsimp only
    rw [Nat.zero_mul, Nat.cast_zero, zero_div]
    simp only [Int.floor_zero, Int.toNat_zero, Nat.cast_zero, sub_zero,
      mul_one, mul_zero, add_zero, zero_add]
    rw [if_pos (by omega)]
    exact roundHalfAway_intCast _
  · rw [hres, getD_map_range _ _ (src.length * to_rate / from_rate - 1)
      (by omega)]
    dsimp only
    have hd : ((src.length * to_rate / from_rate - 1 : Nat) : ℚ) ≠ 0 := by
      have : src.length * to_rate / from_rate - 1 ≠ 0 := by omega
      exact_mod_cast this
    rw [Nat.cast_mul, mul_div_cancel_left₀ _ hd]
    rw [Int.floor_natCast, Int.toNat_natCast]
    rw [if_neg (by omega)]

/-- Witness for the amended C7 at a concrete 16 kHz → 24 kHz input. -/
theorem c7_witness :
    resample [] 16000 24000 = []
    ∧ (resample [10, 20, 30] 16000 24000).length = 4
    ∧ (resample [10, 20, 30] 16000 24000).getD 0 0 = 10
    ∧ (resample [10, 20, 30] 16000 24000).getD 3 0 = 30 := by
  have h := c7_resample_endpoints [10, 20, 30] 16000 24000
    (by decide) (by decide)
  exact ⟨h.1, h.2.1, h.2.2.1, h.2.2.2⟩

/-- `leBytes` produces exactly `n` bytes. -/
theorem leBytes_length (n : Nat) : ∀ v, (leBytes n v).length = n := by
  induction n with
  | zero => intro v; rfl
  | succ m ih =>
    intro v
    simp [leBytes, ih]

/-- Little-endian round-trip for values in range. -/
theorem fromLe_leBytes (n : Nat) : ∀ v, v < 256 ^ n → fromLe (leBytes n v) = v := by
  induction n with
  | zero =>
    intro v hv
    simp [pow_zero] at hv
    simp [hv, leBytes, fromLe]
  | succ m ih =>
    intro v hv
    have hdiv : v / 256 < 256 ^ m := by
      rw [Nat.div_lt_iff_lt_mul (by norm_num)]
      calc v < 256 ^ (m + 1) := hv
        _ = 256 ^ m * 256 := by ring
    simp only [leBytes, fromLe, List.foldr_cons]
    have : fromLe (leBytes m (v / 256)) = v / 256 := ih _ hdiv
    unfold fromLe at this
    rw [this]
    omega

/-- Prefix extraction from an append whose head has known length. -/
theorem take_app (l r : List Nat) (n : Nat) (h : l.length = n) :
    (l ++ r).take n = l := by
  subst h
  exact List.take_left l r

/-- Suffix extraction from an append whose head has known length. -/
theorem drop_app (l r : List Nat) (n : Nat) (h : l.length = n) :
    (l ++ r).drop n = r := by
  subst h
  exact List.drop_left l r

/-- **C8**: the serialized reply datagram is exactly 34 bytes in the
fixed little-endian layout (u32 sensor id, u64 sequence, u8 activity,
u8 kind, then five f32 fields), and every numeric field — in
particular the 32-bit pattern of each f32 — is recovered exactly from
its offset, hence each float round-trips exactly (within 1 ULP a
fortiori).  The kind byte is 1 for Audio and 2 for Emotional, the
activity byte 1 for true and 0 for false. -/
theorem c8_reply_layout (p : VadResponsePacket)
    (h1 : p.sensor_id < 256 ^ 4) (h2 : p.seq < 256 ^ 8)
    (h3 : p.energy < 256 ^ 4) (h4 : p.threshold < 256 ^ 4)
    (h5 : p.valence < 256 ^ 4) (h6 : p.arousal < 256 ^ 4)
    (h7 : p.dominance < 256 ^ 4) :
    p.to_bytes.length = 34
    ∧ fromLe (p.to_bytes.take 4) = p.sensor_id
    ∧ fromLe ((p.to_bytes.drop 4).take 8) = p.seq
    ∧ fromLe ((p.to_bytes.drop 12).take 1) = p.is_active
    ∧ fromLe ((p.to_bytes.drop 13).take 1) = p.kind
    ∧ fromLe ((p.to_bytes.drop 14).take 4) = p.energy
    ∧ fromLe ((p.to_bytes.drop 18).take 4) = p.threshold
    ∧ fromLe ((p.to_bytes.drop 22).take 4) = p.valence
    ∧ fromLe ((p.to_bytes.drop 26).take 4) = p.arousal
    ∧ fromLe ((p.to_bytes.drop 30).take 4) = p.dominance
    ∧ kindByte .audio = 1 ∧ kindByte .emotional = 2
    ∧ activeByte true = 1 ∧ activeByte false = 0 := by
  have e1 : p.to_bytes
      = leBytes 4 p.sensor_id ++ (leBytes 8 p.seq ++ ([p.is_active]
        ++ ([p.kind] ++ (leBytes 4 p.energy ++ (leBytes 4 p.threshold
        ++ (leBytes 4 p.valence ++ (leBytes 4 p.arousal
        ++ leBytes 4 p.dominance))))))) := by
    simp [VadResponsePacket.to_bytes, List.append_assoc]
  have d4 : p.to_bytes.drop 4
      = leBytes 8 p.seq ++ ([p.is_active] ++ ([p.kind]
        ++ (leBytes 4 p.energy ++ (leBytes 4 p.threshold
        ++ (leBytes 4 p.valence ++ (leBytes 4 p.arousal
        ++ leBytes 4 p.dominance)))))) := by
    rw [e1, drop_app _ _ 4 (leBytes_length 4 _)]
  have d12 : p.to_bytes.drop 12
      = [p.is_active] ++ ([p.kind] ++ (leBytes 4 p.energy
        ++ (leBytes 4 p.threshold ++ (leBytes 4 p.valence
        ++ (leBytes 4 p.arousal ++ leBytes 4 p.dominance))))) := by
    rw [show (12 : Nat) = 4 + 8 from rfl, ← List.drop_drop, d4,
      drop_app _ _ 8 (leBytes_length 8 _)]
  have d13 : p.to_bytes.drop 13
      = [p.kind] ++ (leBytes 4 p.energy ++ (leBytes 4 p.threshold
        ++ (leBytes 4 p.valence ++ (leBytes 4 p.arousal
        ++ leBytes 4 p.dominance)))) := by
    rw [show (13 : Nat) = 12 + 1 from rfl, ← List.drop_drop, d12,
      drop_app [_] _ 1 rfl]
  have d14 : p.to_bytes.drop 14
      = leBytes 4 p.energy ++ (leBytes 4 p.threshold
        ++ (leBytes 4 p.valence ++ (leBytes 4 p.arousal
        ++ leBytes 4 p.dominance))) := by
    rw [show (14 : Nat) = 13 + 1 from rfl, ← List.drop_drop, d13,
      drop_app [_] _ 1 rfl]
  have d18 : p.to_bytes.drop 18
      = leBytes 4 p.threshold ++ (leBytes 4 p.valence
        ++ (leBytes 4 p.arousal ++ leBytes 4 p.dominance)) := by
    rw [show (18 : Nat) = 14 + 4 from rfl, ← List.drop_drop, d14,
      drop_app _ _ 4 (leBytes_length 4 _)]
  have d22 : p.to_bytes.drop 22
      = leBytes 4 p.valence ++ (leBytes 4 p.arousal
        ++ leBytes 4 p.dominance) := by
    rw [show (22 : Nat) = 18 + 4 from rfl, ← List.drop_drop, d18,
      drop_app _ _ 4 (leBytes_length 4 _)]
  have d26 : p.to_bytes.drop 26
      = leBytes 4 p.arousal ++ leBytes 4 p.dominance := by
    rw [show (26 : Nat) = 22 + 4 from rfl, ← List.drop_drop, d22,
      drop_app _ _ 4 (leBytes_length 4 _)]
  have d30 : p.to_bytes.drop 30 = leBytes 4 p.dominance := by
    rw [show (30 : Nat) = 26 + 4 from rfl, ← List.drop_drop, d26,
      drop_app _ _ 4 (leBytes_length 4 _)]
  refine ⟨?_, ?_, ?_, ?_, ?_, ?_, ?_, ?_, ?_, ?_, rfl, rfl, rfl, rfl⟩
  · rw [e1]
    simp [leBytes_length]
  · rw [e1, take_app _ _ 4 (leBytes_length 4 _), fromLe_leBytes 4 _ h1]
  · rw [d4, take_app _ _ 8 (leBytes_length 8 _), fromLe_leBytes 8 _ h2]
  · rw [d12, take_app [_] _ 1 rfl]
    simp [fromLe]
  · rw [d13, take_app [_] _ 1 rfl]
    simp [fromLe]
  · rw [d14, take_app _ _ 4 (leBytes_length 4 _), fromLe_leBytes 4 _ h3]
  · rw [d18, take_app _ _ 4 (leBytes_length 4 _), fromLe_leBytes 4 _ h4]
  · rw [d22, take_app _ _ 4 (leBytes_length 4 _), fromLe_leBytes 4 _ h5]
  · rw [d26, take_app _ _ 4 (leBytes_length 4 _), fromLe_leBytes 4 _ h6]
  · rw [d30]
    rw [show (leBytes 4 p.dominance).take 4
      = leBytes 4 p.dominance from
        List.take_of_length_le (by rw [leBytes_length])]
    exact fromLe_leBytes 4 _ h7

/-- Witness for C8 at a concrete reply packet. -/
theorem c8_witness :
    (VadResponsePacket.to_bytes ⟨1, 2, 1, 2, 3, 4, 5, 6, 7⟩).length = 34
    ∧ fromLe ((VadResponsePacket.to_bytes ⟨1, 2, 1, 2, 3, 4, 5, 6, 7⟩).take 4) = 1
    ∧ fromLe (((VadResponsePacket.to_bytes ⟨1, 2, 1, 2, 3, 4, 5, 6, 7⟩).drop 4).take 8) = 2
    ∧ fromLe (((VadResponsePacket.to_bytes ⟨1, 2, 1, 2, 3, 4, 5, 6, 7⟩).drop 12).take 1) = 1
    ∧ fromLe (((VadResponsePacket.to_bytes ⟨1, 2, 1, 2, 3, 4, 5, 6, 7⟩).drop 13).take 1) = 2
    ∧ fromLe (((VadResponsePacket.to_bytes ⟨1, 2, 1, 2, 3, 4, 5, 6, 7⟩).drop 14).take 4) = 3
    ∧ fromLe (((VadResponsePacket.to_bytes ⟨1, 2, 1, 2, 3, 4, 5, 6, 7⟩).drop 18).take 4) = 4
    ∧ fromLe (((VadResponsePacket.to_bytes ⟨1, 2, 1, 2, 3, 4, 5, 6, 7⟩).drop 22).take 4) = 5
    ∧ fromLe (((VadResponsePacket.to_bytes ⟨1, 2, 1, 2, 3, 4, 5, 6, 7⟩).drop 26).take 4) = 6
    ∧ fromLe (((VadResponsePacket.to_bytes ⟨1, 2, 1, 2, 3, 4, 5, 6, 7⟩).drop 30).take 4) = 7
    ∧ kindByte .audio = 1 ∧ kindByte .emotional = 2
    ∧ activeByte true = 1 ∧ activeByte false = 0 :=
  c8_reply_layout ⟨1, 2, 1, 2, 3, 4, 5, 6, 7⟩
    (by norm_num) (by norm_num) (by norm_num) (by norm_num)
    (by norm_num) (by norm_num) (by norm_num)

/-- `from_index` yields nothing above index 3. -/
theorem from_index_none (i : Nat) (h : 3 < i) :
    PersonaTrait.from_index i = none := by
  obtain _ | _ | _ | _ | n := i
  · omega
  · omega
  · omega
  · omega
  · rfl

/-- **C9**: a request carrying a (deserialized, hence valid) persona
name, or an index in `0..3`, replaces the persona state and the
response returns the new persona with its index; when neither field is
present, or the index is out of range, the handler returns status 400
with an error message and leaves the persona state unchanged. -/
theorem c9_set_persona (cur p : PersonaTrait) (i : Nat) :
    set_persona cur (some p) none = (p, .ok p p.index)
    ∧ set_persona cur (some p) (some i) = (p, .ok p p.index)
    ∧ (∀ q, PersonaTrait.from_index i = some q →
        set_persona cur none (some i) = (q, .ok q q.index))
    ∧ (i < 4 → (PersonaTrait.from_index i).isSome = true)
    ∧ (3 < i → set_persona cur none (some i)
        = (cur, .badRequest 400
            ("invalid persona index: " ++ toString i ++ " (valid: 0-3)")))
    ∧ set_persona cur none none
        = (cur, .badRequest 400 "provide either persona (string) or index (0-3)") := by
  refine ⟨rfl, rfl, ?_, ?_, ?_, rfl⟩
  · intro q hq
    simp [set_persona, hq]
  · intro hi
    interval_cases i <;> decide
  · intro hi
    simp [set_persona, from_index_none i hi]

/-- Witness for C9 at concrete request bodies. -/
theorem c9_witness :
    set_persona .obedient (some .stubborn) none = (.stubborn, .ok .stubborn 3)
    ∧ set_persona .obedient none (some 2) = (.cute, .ok .cute 2)
    ∧ (PersonaTrait.from_index 2).isSome = true
    ∧ set_persona .obedient none (some 7)
        = (.obedient, .badRequest 400
            ("invalid persona index: " ++ toString 7 ++ " (valid: 0-3)"))
    ∧ set_persona .obedient none none
        = (.obedient, .badRequest 400 "provide either persona (string) or index (0-3)") := by
  have ha := c9_set_persona .obedient .stubborn 2
  have hb := c9_set_persona .obedient .stubborn 7
  exact ⟨ha.1, ha.2.2.1 .cute rfl, ha.2.2.2.1 (by norm_num),
    hb.2.2.2.2.1 (by norm_num), ha.2.2.2.2.2⟩

/-- Witness for C2 at a concrete session with one lost packet. -/
theorem c2_witness :
    (EspSession.record_audio
        { EspSession.new 7 with audio_packets := 1, last_recv_seq := 10 }
        13 [1, 2]).audio_buffer = [] ++ [1, 2]
    ∧ (EspSession.record_audio
        { EspSession.new 7 with audio_packets := 1, last_recv_seq := 10 }
        13 [1, 2]).packets_lost = 0 + (13 + 65536 - 11 % 65536) % 65536 := by
  have h := c2_record_audio
    { EspSession.new 7 with audio_packets := 1, last_recv_seq := 10 }
    13 [1, 2] (by decide)
  exact ⟨h.1, h.2.1 (by decide)⟩

end VadBridge
